import Mathlib

/-!
# Verification of `system_test/utils/kafka_system_test_utils.py`

A shallow embedding of the orchestration utility module of the kafka system
test harness.  Python strings are modelled as `String` for scalar values
(hostnames, ports, entity ids, status strings) and as `List Char` for log
lines that are scanned character by character.  Python dicts whose insertion
order matters (`testcaseEnv.entityParentPidDict`, per-testcase config dicts)
are modelled as insertion-ordered association lists.  Python exceptions are
modelled with `Except Unit`: a function that can raise returns
`Except Unit α`; a `try/except` block in the source becomes an explicit
`match` on the inner `Except` value.
-/

namespace KafkaSystemTest

/-! ## Python primitives -/

/-- Python `line.rstrip('\n')`: remove every trailing newline character. -/
def pyRstripNl (l : List Char) : List Char :=
  (l.reverse.dropWhile (fun c => c = '\n')).reverse

/-- Python `s.split(sep)` for a one-character separator: split at every
occurrence of `sep`, keeping empty fields. -/
def pySplit (sep : Char) : List Char → List (List Char)
  | [] => [[]]
  | c :: cs =>
    let rest := pySplit sep cs
    if c = sep then [] :: rest
    else
      match rest with
      | [] => [[c]]
      | r :: rs => (c :: r) :: rs

/-- All positions `i` of `hay` at which `needle` occurs as a substring. -/
def occurrences (needle hay : List Char) : List Nat :=
  (List.range (hay.length + 1)).filter (fun i => needle.isPrefixOf (hay.drop i))

/-- Python `needle in hay` substring containment test. -/
def containsSub (needle hay : List Char) : Bool :=
  !(occurrences needle hay).isEmpty

/-- Python `dct[k]` read access on an insertion-ordered dict modelled as an
association list; `none` models a raised `KeyError`. -/
def dictLookup (dct : List (String × String)) (k : String) : Option String :=
  (dct.find? (fun kv => kv.1 = k)).map Prod.snd

/-- Python `dct[k] = v` on an insertion-ordered dict: overwrite an existing
entry in place, otherwise append a new entry at the end. -/
def dictSet (dct : List (String × String)) (k v : String) : List (String × String) :=
  if dct.any (fun kv => kv.1 = k) then
    dct.map (fun kv => if kv.1 = k then (k, v) else kv)
  else
    dct ++ [(k, v)]

/-! ## Path Resolver (`get_testcase_config_log_dir_pathname`, lines 56-72) -/

/-- The two directory fields of `testcaseEnv` that the path resolver reads. -/
structure TestcaseEnvPaths where
  testCaseLogsDir : String
  testCaseBaseDir : String
deriving DecidableEq

/-- Result of a path resolution: the returned path together with the error
messages emitted through `logger.error` (empty when no error was logged). -/
structure PathResult where
  path   : String
  errors : List String
deriving DecidableEq

/-- `get_testcase_config_log_dir_pathname(testcaseEnv, role, entityId, type)`:
the `if/elif` chain of lines 61-72 of the source. -/
def get_testcase_config_log_dir_pathname (testcaseEnv : TestcaseEnvPaths)
    (role entityId type : String) : PathResult :=
  let defaultLogDir := testcaseEnv.testCaseLogsDir ++ "/" ++ role ++ "-" ++ entityId
  if type = "metrics" then
    { path := testcaseEnv.testCaseLogsDir ++ "/" ++ role ++ "-" ++ entityId ++ "/metrics", errors := [] }
  else if type = "default" then
    { path := testcaseEnv.testCaseLogsDir ++ "/" ++ role ++ "-" ++ entityId, errors := [] }
  else if type = "dashboards" then
    { path := testcaseEnv.testCaseLogsDir ++ "/dashboards", errors := [] }
  else if type = "config" then
    { path := testcaseEnv.testCaseBaseDir ++ "/config", errors := [] }
  else
    { path := defaultLogDir,
      errors := ["unrecognized log directory type : " ++ type,
                 "returning default log dir : " ++ defaultLogDir] }

/-! ## Message-id extraction (`get_message_id`, lines 571-582) -/

/-- The literal `"MessageID"` scanned for by `get_message_id`. -/
def messageIdLiteral : List Char := ("MessageID").toList

/-- The literal `"MessageID:"` that the regex `.*MessageID:(.*?):` must find. -/
def messageIdMarker : List Char := ("MessageID:").toList

/-- Model of `re.match('.*MessageID:(.*?):', line)`.  The greedy `.*` with
backtracking selects the LAST position `p` at which `MessageID:` occurs and
is followed by a later `:`; the lazy group `(.*?)` then captures up to the
first `:` after that occurrence.  `none` models a failed match (`re.match`
returning `None`).  The `.`-does-not-match-`'\n'` restriction is immaterial
because `readlines` lines contain `'\n'` only as their final character. -/
def matchMessageId (line : List Char) : Option (List Char) :=
  let ps := (occurrences messageIdMarker line).filter
    (fun p => (line.drop (p + messageIdMarker.length)).any (fun c => c = ':'))
  match ps.getLast? with
  | none => none
  | some p => some ((line.drop (p + messageIdMarker.length)).takeWhile (fun c => c ≠ ':'))

/-- Loop body of `get_message_id` (lines 575-580): a line not containing
`"MessageID"` is skipped; otherwise the regex is applied and `group(1)` is
appended.  A line containing `"MessageID"` on which the regex fails makes
`matchObj` equal to `None`, so `matchObj.group(1)` raises `AttributeError`:
modelled by `Except.error ()`. -/
def messageIdStep (acc : Except Unit (List (List Char))) (line : List Char) :
    Except Unit (List (List Char)) :=
  match acc with
  | .error e => .error e
  | .ok messageIdList =>
    if containsSub messageIdLiteral line then
      match matchMessageId line with
      | some g => .ok (messageIdList ++ [g])
      | none => .error ()
    else .ok messageIdList

/-- `get_message_id(logPathName)` over the lines of the log file. -/
def get_message_id (logLines : List (List Char)) : Except Unit (List (List Char)) :=
  logLines.foldl messageIdStep (.ok [])

/-! ## Data-matched validation (`validate_data_matched`, lines 585-618) -/

/-- Observable outcome of `validate_data_matched`: the status string recorded
in `validationStatusDict["Validate for data matched"]`, the lines written to
`msg_id_missing_in_consumer.log` (one message id per line, written in both
branches before the check), and the boolean return value. -/
structure ValidationOutcome where
  status       : String
  missingLines : List (List Char)
  returned     : Bool
deriving DecidableEq

/-- `validate_data_matched`: Python `set(list)` is modelled by `List.dedup`
(the set of elements, in some enumeration) and the set difference
`producerMsgIdSet - consumerMsgIdSet` by a filter on that enumeration. -/
def validate_data_matched (producerMsgIdList consumerMsgIdList : List (List Char)) :
    ValidationOutcome :=
  let producerMsgIdSet := producerMsgIdList.dedup
  let consumerMsgIdSet := consumerMsgIdList.dedup
  let missingMsgIdInConsumer := producerMsgIdSet.filter (fun x => ¬ x ∈ consumerMsgIdSet)
  if missingMsgIdInConsumer.length = 0 ∧ 0 < producerMsgIdSet.length then
    { status := "PASSED", missingLines := missingMsgIdInConsumer, returned := true }
  else
    { status := "FAILED", missingLines := missingMsgIdInConsumer, returned := false }

/-! ## Process Lifecycle Manager
(`start_entity_in_background` lines 380-452, `start_metrics_collection`
lines 196-226, `start_zookeepers` lines 305-312) -/

/-- The two pieces of `testcaseEnv` state that `start_entity_in_background`
mutates: `userDefinedEnvVarDict["zkConnectStr"]` and `entityParentPidDict`. -/
structure TcEnvState where
  zkConnectStr        : String
  entityParentPidDict : List (String × String)
deriving DecidableEq

/-- Lines 412-416 of `start_entity_in_background`: append
`hostname:clientPort` to the accumulating connection string, with a comma
separator unless the string is still empty. -/
def appendZkConnect (zkConnectStr hostname clientPort : String) : String :=
  if 0 < zkConnectStr.length then
    zkConnectStr ++ "," ++ hostname ++ ":" ++ clientPort
  else
    hostname ++ ":" ++ clientPort

/-- Lines 442-447 of `start_entity_in_background`: scan the read-back of the
pid marker file; every line starting with `"pid"` is stripped of trailing
newlines and split on `':'`, and `entityParentPidDict[entityId] = tokens[1]`
is recorded.  A `"pid"` line with no `':'` makes `tokens[1]` raise
`IndexError`, modelled by `Except.error ()`. -/
def registerEntityPidLines (dct : List (String × String)) (entityId : String)
    (lines : List (List Char)) : Except Unit (List (String × String)) :=
  lines.foldl
    (fun acc line =>
      match acc with
      | .error e => .error e
      | .ok dct =>
        if ("pid").toList.isPrefixOf line then
          let tokens := pySplit ':' (pyRstripNl line)
          match tokens.get? 1 with
          | some t => .ok (dictSet dct entityId (String.mk t))
          | none => .error ()
        else .ok dct)
    (.ok dct)

/-- The pid-registration effect of `start_metrics_collection` (lines
220-226): identical read-back loop to `registerEntityPidLines`, except that
the recorded entry is `entityParentPidDict[thisPid] = thisPid` — keyed by
the pid string itself, not by the entity id.  The remote JmxTool launch that
precedes it has no effect on the modelled state. -/
def start_metrics_collection (dct : List (String × String))
    (lines : List (List Char)) : Except Unit (List (String × String)) :=
  lines.foldl
    (fun acc line =>
      match acc with
      | .error e => .error e
      | .ok dct =>
        if ("pid").toList.isPrefixOf line then
          let tokens := pySplit ':' (pyRstripNl line)
          match tokens.get? 1 with
          | some t => .ok (dictSet dct (String.mk t) (String.mk t))
          | none => .error ()
        else .ok dct)
    (.ok dct)

/-- State effects of `start_entity_in_background(systemTestEnv, testcaseEnv,
entityId)`.  `entityPidLines` is the read-back of the entity's pid marker
file and `metricsPidLines` that of the metrics collector's marker file (only
consulted for brokers, which trigger `start_metrics_collection` after pid
registration).  The remote ssh launch, the config lookups and the 5-second
settle delay have no effect on the modelled state. -/
def start_entity_in_background (env : TcEnvState) (role hostname clientPort entityId : String)
    (entityPidLines metricsPidLines : List (List Char)) : Except Unit TcEnvState :=
  let env :=
    if role = "zookeeper" then
      { env with zkConnectStr := appendZkConnect env.zkConnectStr hostname clientPort }
    else env
  match registerEntityPidLines env.entityParentPidDict entityId entityPidLines with
  | .error e => .error e
  | .ok dct =>
    let env := { env with entityParentPidDict := dct }
    if role = "broker" then
      match start_metrics_collection env.entityParentPidDict metricsPidLines with
      | .error e => .error e
      | .ok dct2 => .ok { env with entityParentPidDict := dct2 }
    else .ok env

/-! ## Config Materializer (`copy_file_with_dict_values` lines 182-193,
`generate_overriden_props_files` lines 229-289) -/

/-- Inner loop of `copy_file_with_dict_values` for a single line: every key
of the dict is tried in insertion order, and whenever the line starts with
`key + "="` the line is replaced by `key + "=" + value + "\n"` (subsequent
keys are tested against the replaced line). -/
def processLine (dictObj : List (List Char × List Char)) (line : List Char) : List Char :=
  dictObj.foldl
    (fun l kv => if (kv.1 ++ ['=']).isPrefixOf l then kv.1 ++ ['='] ++ kv.2 ++ ['\n'] else l)
    line

/-- `copy_file_with_dict_values(srcFile, destFile, dictObj)` over the lines
of the source file (each with its trailing newline as read by `readlines`);
the result is the sequence of lines written to the destination file. -/
def copy_file_with_dict_values (inlines : List (List Char))
    (dictObj : List (List Char × List Char)) : List (List Char) :=
  inlines.map (processLine dictObj)

/-- Spec-side rendering of one template line, following the specification's
words: a line whose key (the text before `=`) matches an entry of the
settings mapping is rewritten as `key=value`; a line with no matching key is
copied verbatim. -/
def renderLineSpec (dictObj : List (List Char × List Char)) (line : List Char) : List Char :=
  match dictObj.find? (fun kv => (kv.1 ++ ['=']).isPrefixOf line) with
  | some kv => kv.1 ++ ['='] ++ kv.2 ++ ['\n']
  | none => line

/-- One entity of `clusterEntityConfigDictList` as consulted by
`generate_overriden_props_files`. -/
structure ClusterCfg where
  entity_id : String
  role      : String
deriving DecidableEq

/-- One call to `copy_file_with_dict_values` issued by
`generate_overriden_props_files`: which role template is copied, to which
destination file, with which settings dict. -/
structure WriteAction where
  template        : String
  config_filename : String
  settings        : List (String × String)
deriving DecidableEq

/-- Lines 262-286: contribution of one `(clusterCfg, tcCfg)` pair.  Returns
the write actions issued and the tcCfg dicts printed by the `UNHANDLED key`
branch.  `Except.error ()` models the `KeyError` raised when `tcCfg` lacks
`entity_id` or (in a recognized-role branch) `config_filename`. -/
def processEntityTcCfg (zkConnectStr : String) (clusterCfg : ClusterCfg)
    (tcCfg : List (String × String)) :
    Except Unit (List WriteAction × List (List (String × String))) :=
  match dictLookup tcCfg "entity_id" with
  | none => .error ()
  | some eid =>
    if eid = clusterCfg.entity_id then
      if clusterCfg.role = "broker" then
        let tcCfg := dictSet tcCfg "zk.connect" zkConnectStr
        match dictLookup tcCfg "config_filename" with
        | none => .error ()
        | some fn => .ok ([⟨"server.properties", fn, tcCfg⟩], [])
      else if clusterCfg.role = "zookeeper" then
        match dictLookup tcCfg "config_filename" with
        | none => .error ()
        | some fn => .ok ([⟨"zookeeper.properties", fn, tcCfg⟩], [])
      else if clusterCfg.role = "producer_performance" then
        let tcCfg := dictSet tcCfg "brokerinfo" ("zk.connect" ++ "=" ++ zkConnectStr)
        match dictLookup tcCfg "config_filename" with
        | none => .error ()
        | some fn => .ok ([⟨"producer_performance.properties", fn, tcCfg⟩], [])
      else if clusterCfg.role = "console_consumer" then
        let tcCfg := dictSet tcCfg "zookeeper" zkConnectStr
        match dictLookup tcCfg "config_filename" with
        | none => .error ()
        | some fn => .ok ([⟨"console_consumer.properties", fn, tcCfg⟩], [])
      else
        .ok ([], [tcCfg])
    else .ok ([], [])

/-- Inner `for tcCfg in tcConfigsList` loop of lines 261-286 for one cluster
entity. -/
def processCluster (zkConnectStr : String) (clusterCfg : ClusterCfg)
    (tcConfigsList : List (List (String × String))) :
    Except Unit (List WriteAction × List (List (String × String))) :=
  match tcConfigsList with
  | [] => .ok ([], [])
  | tcCfg :: rest =>
    match processEntityTcCfg zkConnectStr clusterCfg tcCfg with
    | .error e => .error e
    | .ok (w₁, u₁) =>
      match processCluster zkConnectStr clusterCfg rest with
      | .error e => .error e
      | .ok (w₂, u₂) => .ok (w₁ ++ w₂, u₁ ++ u₂)

/-- Outer `for clusterCfg in clusterConfigsList` loop of lines 258-286 of
`generate_overriden_props_files`, with the zookeeper connection string
already computed (lines 244-255 model it with `appendZkConnect`).  The
trailing `scp_file_to_remote_host` call has no effect on the modelled
observables. -/
def generate_overriden_props_files (zkConnectStr : String)
    (clusterConfigsList : List ClusterCfg)
    (tcConfigsList : List (List (String × String))) :
    Except Unit (List WriteAction × List (List (String × String))) :=
  match clusterConfigsList with
  | [] => .ok ([], [])
  | clusterCfg :: rest =>
    match processCluster zkConnectStr clusterCfg tcConfigsList with
    | .error e => .error e
    | .ok (w₁, u₁) =>
      match generate_overriden_props_files zkConnectStr rest tcConfigsList with
      | .error e => .error e
      | .ok (w₂, u₂) => .ok (w₁ ++ w₂, u₁ ++ u₂)

/-! ## Log Fact Extractor (`get_leader_elected_log_line`, lines 325-377) -/

/-- The dict `leaderDict` built by `get_leader_elected_log_line`; the code
only ever assigns these six keys, so the dict is modelled as six optional
fields.  The `timestamp` field stores the matched datetime group; its
conversion to a Unix epoch float (lines 365-366) happens inside the same
`try` block and no claim depends on the numeric value. -/
structure LeaderDict where
  entity_id : Option String
  hostname  : Option String
  timestamp : Option String
  brokerid  : Option String
  topic     : Option String
  partition : Option String
deriving DecidableEq

/-- Python `len(leaderDict)`: the number of keys present. -/
def LeaderDict.size (dct : LeaderDict) : Nat :=
  (if dct.entity_id.isSome then 1 else 0) + (if dct.hostname.isSome then 1 else 0) +
  (if dct.timestamp.isSome then 1 else 0) + (if dct.brokerid.isSome then 1 else 0) +
  (if dct.topic.isSome then 1 else 0) + (if dct.partition.isSome then 1 else 0)

/-- The empty dict `leaderDict = {}` of line 331. -/
def LeaderDict.empty : LeaderDict := ⟨none, none, none, none, none, none⟩

/-- One broker as iterated by `get_leader_elected_log_line`: its entity id,
its hostname, and the stdout lines of the remote
`grep -i -h '<marker>' <log> | sort | tail -1` command. -/
structure BrokerLogInfo where
  entity_id       : String
  hostname        : String
  grepOutputLines : List (List Char)
deriving DecidableEq

/-- The body of the `try` block of lines 362-371, abstracted as a single
step: `re.match` with the caller-supplied
`REGX_LEADER_ELECTION_PATTERN`, the four `group(...)` reads and the
`strptime`/`mktime` conversion either all succeed, yielding the four groups
(timestamp string, broker id, topic, partition), or raise — caught by the
`except` of line 372, which logs and leaves `leaderDict` as it was. -/
def TryMatchLeader : Type := List Char → Except Unit (String × String × String × String)

/-- Lines 356-375: processing of one grep-output line — the line is stripped
of its trailing newline; when it contains the marker, the `try` block runs,
its success overwriting the four match fields and its failure being caught
and logged, leaving the dict unchanged. -/
def leaderLineStep (marker : List Char) (tryMatch : TryMatchLeader)
    (leaderDict : LeaderDict) (line : List Char) : LeaderDict :=
  if containsSub marker (pyRstripNl line) then
    match tryMatch (pyRstripNl line) with
    | .ok (ts, bid, top, part) =>
      { leaderDict with
          timestamp := some ts, brokerid := some bid,
          topic := some top, partition := some part }
    | .error _ => leaderDict
  else leaderDict

/-- Lines 337-375: the per-broker body — unconditional assignment of
`entity_id` and `hostname`, then the line loop. -/
def leaderBrokerStep (marker : List Char) (tryMatch : TryMatchLeader)
    (leaderDict : LeaderDict) (broker : BrokerLogInfo) : LeaderDict :=
  broker.grepOutputLines.foldl (leaderLineStep marker tryMatch)
    { leaderDict with entity_id := some broker.entity_id, hostname := some broker.hostname }

/-- `get_leader_elected_log_line(systemTestEnv, testcaseEnv)`: starting from
the empty dict of line 331, every broker in topology order is processed by
`leaderBrokerStep`; `leaderDict["entity_id"]` and `leaderDict["hostname"]`
are assigned unconditionally per broker (lines 344-345).  The function
itself never raises: its only exception source is the `try` block inside
`leaderLineStep`, whose failure is caught. -/
def get_leader_elected_log_line (marker : List Char) (tryMatch : TryMatchLeader)
    (brokers : List BrokerLogInfo) : LeaderDict :=
  brokers.foldl (leaderBrokerStep marker tryMatch) LeaderDict.empty

/-! ## Leader-election validation (`validate_leader_election_successful`,
lines 621-642) -/

/-- The body of the `try` block of lines 624-633: the sequential reads
`leaderDict["brokerid"]`, `leaderDict["entity_id"]`,
`entityParentPidDict[leaderEntityId]`, `leaderDict["hostname"]` and (inside
the `logger.info` call) `leaderDict["partition"]`; the first missing key
raises `KeyError`, modelled by `Except.error ()`. -/
def leaderElectionTryBlock (entityParentPidDict : List (String × String))
    (leaderDict : LeaderDict) : Except Unit Unit :=
  match leaderDict.brokerid with
  | none => .error ()
  | some _ =>
    match leaderDict.entity_id with
    | none => .error ()
    | some leaderEntityId =>
      match dictLookup entityParentPidDict leaderEntityId with
      | none => .error ()
      | some _ =>
        match leaderDict.hostname with
        | none => .error ()
        | some _ =>
          match leaderDict.partition with
          | none => .error ()
          | some _ => .ok ()

/-- `validate_leader_election_successful(testcaseEnv, leaderDict,
validationStatusDict)`: returns the status recorded in
`validationStatusDict["Validate leader election successful"]` and the
boolean return value.  The `except` of line 634 catches every exception of
the `try` block (logging it), so the function never propagates one. -/
def validate_leader_election_successful (entityParentPidDict : List (String × String))
    (leaderDict : LeaderDict) : String × Bool :=
  if 0 < leaderDict.size then
    match leaderElectionTryBlock entityParentPidDict leaderDict with
    | .ok _ => ("PASSED", true)
    | .error _ => ("FAILED", false)
  else ("FAILED", false)

/-! ## Helper lemmas -/

/-- The missing-id list of `validate_data_matched` is empty exactly when the
producer id set is contained in the consumer id set. -/
lemma missing_filter_eq_nil_iff (P C : List (List Char)) :
    (P.dedup.filter (fun x => ¬ x ∈ C.dedup)).length = 0 ↔
      P.toFinset \ C.toFinset = ∅ := by
  rw [List.length_eq_zero, List.filter_eq_nil_iff, Finset.sdiff_eq_empty_iff_subset]
  constructor
  · intro h x hx
    rw [List.mem_toFinset] at hx ⊢
    have := h x (by rwa [List.mem_dedup])
    simpa [List.mem_dedup] using this
  · intro h x hx
    rw [List.mem_dedup] at hx
    have := h (List.mem_toFinset.mpr hx)
    simp [List.mem_dedup, List.mem_toFinset.mp this]

/-- members of the missing-id list of `validate_data_matched`. -/
lemma mem_missing_filter (P C : List (List Char)) (x : List Char) :
    x ∈ P.dedup.filter (fun x => ¬ x ∈ C.dedup) ↔
      x ∈ P.toFinset \ C.toFinset := by
  simp [List.mem_filter, List.mem_dedup, Finset.mem_sdiff, List.mem_toFinset]

/-! ## C9 : Path Resolver -/

/-- C9: for every environment, resolution with purpose `"metrics"` returns
`<logsDir>/<role>-<entityId>/metrics`; purpose `"dashboards"` returns
`<logsDir>/dashboards` independent of role and entity; and any unrecognized
purpose logs an error and returns the default per-role-per-entity path
`<logsDir>/<role>-<entityId>` without aborting. -/
theorem get_testcase_config_log_dir_pathname_spec
    (testcaseEnv : TestcaseEnvPaths) (role entityId : String) :
    (get_testcase_config_log_dir_pathname testcaseEnv role entityId "metrics" =
      ⟨testcaseEnv.testCaseLogsDir ++ "/" ++ role ++ "-" ++ entityId ++ "/metrics", []⟩) ∧
    (get_testcase_config_log_dir_pathname testcaseEnv role entityId "dashboards" =
      ⟨testcaseEnv.testCaseLogsDir ++ "/dashboards", []⟩) ∧
    (∀ type, type ∉ ["metrics", "default", "dashboards", "config"] →
      get_testcase_config_log_dir_pathname testcaseEnv role entityId type =
        ⟨testcaseEnv.testCaseLogsDir ++ "/" ++ role ++ "-" ++ entityId,
         ["unrecognized log directory type : " ++ type,
          "returning default log dir : " ++
            (testcaseEnv.testCaseLogsDir ++ "/" ++ role ++ "-" ++ entityId)]⟩) := by
  refine ⟨rfl, by simp [get_testcase_config_log_dir_pathname], ?_⟩
  intro type htype
  simp only [List.mem_cons, List.mem_singleton, not_or] at htype
  obtain ⟨h1, h2, h3, h4⟩ := htype
  simp [get_testcase_config_log_dir_pathname, h1, h2, h3, h4]

/-- Witness for C9: resolving the unrecognized purpose `"foo"` yields the
default path together with two logged error messages. -/
theorem get_testcase_config_log_dir_pathname_spec_witness :
    ("foo" : String) ∉ ["metrics", "default", "dashboards", "config"] ∧
    get_testcase_config_log_dir_pathname ⟨"/L", "/B"⟩ "broker" "e1" "foo" =
      ⟨"/L" ++ "/" ++ "broker" ++ "-" ++ "e1",
       ["unrecognized log directory type : " ++ "foo",
        "returning default log dir : " ++ ("/L" ++ "/" ++ "broker" ++ "-" ++ "e1")]⟩ :=
  ⟨by decide,
   (get_testcase_config_log_dir_pathname_spec ⟨"/L", "/B"⟩ "broker" "e1").2.2 "foo" (by decide)⟩

/-! ## C1 : data-matched validation, PASSED iff no id missing and producer
set non-empty -/

/-- C1: `validate_data_matched` records PASSED (and returns `True`) if and
only if the producer id set minus the consumer id set is empty and the
producer id set is non-empty; in particular, for every consumer id set, an
empty producer id set yields FAILED. -/
theorem validate_data_matched_passed_iff :
    (∀ producerMsgIdList consumerMsgIdList : List (List Char),
      ((validate_data_matched producerMsgIdList consumerMsgIdList).status = "PASSED" ∧
       (validate_data_matched producerMsgIdList consumerMsgIdList).returned = true) ↔
      (producerMsgIdList.toFinset \ consumerMsgIdList.toFinset = ∅ ∧
       producerMsgIdList.toFinset ≠ ∅)) ∧
    (∀ consumerMsgIdList : List (List Char),
      (validate_data_matched [] consumerMsgIdList).status = "FAILED" ∧
      (validate_data_matched [] consumerMsgIdList).returned = false) := by
  constructor
  · intro P C
    unfold validate_data_matched
    by_cases h : (P.dedup.filter (fun x => ¬ x ∈ C.dedup)).length = 0 ∧ 0 < P.dedup.length
    · rw [if_pos h]
      have h1 : P.toFinset \ C.toFinset = ∅ := (missing_filter_eq_nil_iff P C).mp h.1
      have h2 : P.toFinset ≠ ∅ := by
        rw [Ne, List.toFinset_eq_empty_iff]
        intro hP
        rw [hP] at h
        simp at h
      simp [h1, h2]
    · rw [if_neg h]
      simp only [String.reduceEq, false_and, false_iff, not_and]
      intro hd hne
      apply h
      refine ⟨(missing_filter_eq_nil_iff P C).mpr hd, ?_⟩
      rw [List.length_pos, Ne, List.dedup_eq_nil]
      intro hP
      rw [hP] at hne
      simp at hne
  · intro C
    unfold validate_data_matched
    rw [if_neg]
    · exact ⟨rfl, rfl⟩
    · simp

/-! ## C6 : data-matched validation on a missing id -/

/-- C6: whenever the producer id set is not contained in the consumer id
set, `validate_data_matched` records FAILED and the dedicated missing-ids
log file receives exactly the elements of `P - C`, one id per line and each
exactly once. -/
theorem validate_data_matched_missing_log (P C : List (List Char))
    (h : ¬ P.toFinset ⊆ C.toFinset) :
    (validate_data_matched P C).status = "FAILED" ∧
    (validate_data_matched P C).returned = false ∧
    (validate_data_matched P C).missingLines.toFinset = P.toFinset \ C.toFinset ∧
    (validate_data_matched P C).missingLines.Nodup := by
  have hlen : ¬ (P.dedup.filter (fun x => ¬ x ∈ C.dedup)).length = 0 := by
    rw [missing_filter_eq_nil_iff, Finset.sdiff_eq_empty_iff_subset]
    exact h
  unfold validate_data_matched
  rw [if_neg (by intro hc; exact hlen hc.1)]
  refine ⟨rfl, rfl, ?_, ?_⟩
  · ext x
    rw [List.mem_toFinset, mem_missing_filter]
  · exact List.Nodup.filter _ P.nodup_dedup

/-- Witness for C6: producer ids `{a, b}`, consumer ids `{a}` — FAILED with
exactly `b` in the missing-ids log. -/
theorem validate_data_matched_missing_log_witness :
    ¬ (([['a'], ['b']] : List (List Char)).toFinset ⊆ ([['a']] : List (List Char)).toFinset) ∧
    ((validate_data_matched [['a'], ['b']] [['a']]).status = "FAILED" ∧
     (validate_data_matched [['a'], ['b']] [['a']]).returned = false ∧
     (validate_data_matched [['a'], ['b']] [['a']]).missingLines.toFinset =
       ([['a'], ['b']] : List (List Char)).toFinset \ ([['a']] : List (List Char)).toFinset ∧
     (validate_data_matched [['a'], ['b']] [['a']]).missingLines.Nodup) :=
  ⟨by decide, validate_data_matched_missing_log [['a'], ['b']] [['a']] (by decide)⟩

/-! ## C2 : leader-election validation -/

/-- A dict with `entity_id` present has positive length. -/
lemma LeaderDict.size_pos_of_entity_id {dct : LeaderDict} (h : dct.entity_id.isSome) :
    0 < dct.size := by
  unfold LeaderDict.size
  rw [h]
  simp only [if_true]
  positivity

/-- C2: `validate_leader_election_successful` records PASSED (returning
`True`) exactly when the leader fact is non-empty, its required fields
(`brokerid`, `entity_id`, `hostname`, `partition`) are all present, and a
process id is on record in `entityParentPidDict` for the fact's
`entity_id`; in every other case — any required field missing — the raised
`KeyError` is caught (never propagated: the function is total) and FAILED
is recorded with `False` returned. -/
theorem validate_leader_election_successful_iff
    (entityParentPidDict : List (String × String)) (leaderDict : LeaderDict) :
    (validate_leader_election_successful entityParentPidDict leaderDict = ("PASSED", true) ↔
      (0 < leaderDict.size ∧ leaderDict.brokerid.isSome ∧ leaderDict.hostname.isSome ∧
       leaderDict.partition.isSome ∧
       ∃ eid, leaderDict.entity_id = some eid ∧
         (dictLookup entityParentPidDict eid).isSome)) ∧
    (validate_leader_election_successful entityParentPidDict leaderDict = ("PASSED", true) ∨
     validate_leader_election_successful entityParentPidDict leaderDict = ("FAILED", false)) := by
  obtain ⟨eid, host, ts, bid, top, part⟩ := leaderDict
  unfold validate_leader_election_successful leaderElectionTryBlock
  by_cases hs : 0 < LeaderDict.size ⟨eid, host, ts, bid, top, part⟩
  · rw [if_pos hs]
    cases bid with
    | none => simp
    | some b =>
      cases eid with
      | none => simp
      | some e =>
        cases hlk : dictLookup entityParentPidDict e with
        | none => simp [hlk]
        | some p =>
          cases host with
          | none => simp [hlk]
          | some hh =>
            cases part with
            | none => simp [hlk]
            | some pp => simp [hs, hlk]
  · rw [if_neg hs]
    simp [hs]

/-! ## C10 : the leader fact always names the last broker iterated -/

/-- `leaderLineStep` never touches `entity_id` or `hostname`. -/
lemma leaderLineStep_preserves (marker : List Char) (tryMatch : TryMatchLeader)
    (leaderDict : LeaderDict) (line : List Char) :
    (leaderLineStep marker tryMatch leaderDict line).entity_id = leaderDict.entity_id ∧
    (leaderLineStep marker tryMatch leaderDict line).hostname = leaderDict.hostname := by
  unfold leaderLineStep
  split
  · split <;> simp
  · exact ⟨rfl, rfl⟩

/-- The line loop of one broker never touches `entity_id` or `hostname`. -/
lemma leaderLineFold_preserves (marker : List Char) (tryMatch : TryMatchLeader)
    (lines : List (List Char)) (leaderDict : LeaderDict) :
    (lines.foldl (leaderLineStep marker tryMatch) leaderDict).entity_id = leaderDict.entity_id ∧
    (lines.foldl (leaderLineStep marker tryMatch) leaderDict).hostname = leaderDict.hostname := by
  induction lines generalizing leaderDict with
  | nil => exact ⟨rfl, rfl⟩
  | cons line rest ih =>
    rw [List.foldl_cons]
    obtain ⟨h1, h2⟩ := ih (leaderLineStep marker tryMatch leaderDict line)
    obtain ⟨h3, h4⟩ := leaderLineStep_preserves marker tryMatch leaderDict line
    exact ⟨h1.trans h3, h2.trans h4⟩

/-- After one `leaderBrokerStep`, `entity_id` and `hostname` are those of
the processed broker. -/
lemma leaderBrokerStep_entity (marker : List Char) (tryMatch : TryMatchLeader)
    (leaderDict : LeaderDict) (broker : BrokerLogInfo) :
    (leaderBrokerStep marker tryMatch leaderDict broker).entity_id = some broker.entity_id ∧
    (leaderBrokerStep marker tryMatch leaderDict broker).hostname = some broker.hostname := by
  unfold leaderBrokerStep
  obtain ⟨h1, h2⟩ := leaderLineFold_preserves marker tryMatch broker.grepOutputLines
    { leaderDict with entity_id := some broker.entity_id, hostname := some broker.hostname }
  exact ⟨h1, h2⟩

/-- The broker loop ends with the last broker's `entity_id` and `hostname`. -/
lemma leaderBrokerFold_last (marker : List Char) (tryMatch : TryMatchLeader)
    (brokers : List BrokerLogInfo) (h : brokers ≠ []) (leaderDict : LeaderDict) :
    (brokers.foldl (leaderBrokerStep marker tryMatch) leaderDict).entity_id =
      some ((brokers.getLast h).entity_id) ∧
    (brokers.foldl (leaderBrokerStep marker tryMatch) leaderDict).hostname =
      some ((brokers.getLast h).hostname) := by
  induction brokers generalizing leaderDict with
  | nil => exact absurd rfl h
  | cons broker rest ih =>
    cases rest with
    | nil =>
      rw [List.foldl_cons, List.foldl_nil]
      exact leaderBrokerStep_entity marker tryMatch leaderDict broker
    | cons b2 rest2 =>
      rw [List.foldl_cons, List.getLast_cons (List.cons_ne_nil b2 rest2)]
      exact ih (List.cons_ne_nil b2 rest2) _

/-- C10: over a non-empty broker list, the returned dict always contains
`entity_id` and `hostname`, set unconditionally to the last broker iterated
in topology order — even when no log line of any broker matched — so the
returned fact is non-empty whenever at least one broker exists (and the
recorded `entity_id` is the last broker's, not necessarily the matching
broker's). -/
theorem get_leader_elected_log_line_last_broker (marker : List Char)
    (tryMatch : TryMatchLeader) (brokers : List BrokerLogInfo) (h : brokers ≠ []) :
    (get_leader_elected_log_line marker tryMatch brokers).entity_id =
      some ((brokers.getLast h).entity_id) ∧
    (get_leader_elected_log_line marker tryMatch brokers).hostname =
      some ((brokers.getLast h).hostname) ∧
    0 < (get_leader_elected_log_line marker tryMatch brokers).size := by
  obtain ⟨h1, h2⟩ := leaderBrokerFold_last marker tryMatch brokers h LeaderDict.empty
  refine ⟨h1, h2, LeaderDict.size_pos_of_entity_id ?_⟩
  rw [show (get_leader_elected_log_line marker tryMatch brokers).entity_id =
        some ((brokers.getLast h).entity_id) from h1]
  rfl

/-- Witness for C10: broker `"1"` has a matching leader-election line yet
the returned fact names broker `"2"`, the last one iterated. -/
theorem get_leader_elected_log_line_last_broker_witness :
    ([⟨"1", "h1", [("x leader y\n").toList]⟩, ⟨"2", "h2", []⟩] : List BrokerLogInfo) ≠ [] ∧
    ((get_leader_elected_log_line ("leader").toList (fun _ => .ok ("ts", "0", "t1", "0"))
        [⟨"1", "h1", [("x leader y\n").toList]⟩, ⟨"2", "h2", []⟩]).entity_id = some "2" ∧
     (get_leader_elected_log_line ("leader").toList (fun _ => .ok ("ts", "0", "t1", "0"))
        [⟨"1", "h1", [("x leader y\n").toList]⟩, ⟨"2", "h2", []⟩]).hostname = some "h2" ∧
     0 < (get_leader_elected_log_line ("leader").toList (fun _ => .ok ("ts", "0", "t1", "0"))
        [⟨"1", "h1", [("x leader y\n").toList]⟩, ⟨"2", "h2", []⟩]).size) := by
  constructor
  · decide
  · have := get_leader_elected_log_line_last_broker ("leader").toList
      (fun _ => .ok ("ts", "0", "t1", "0"))
      [⟨"1", "h1", [("x leader y\n").toList]⟩, ⟨"2", "h2", []⟩] (by decide)
    simpa using this

/-! ## C7 : coordination connection-string accumulation -/

/-- C7: starting three coordination (zookeeper) entities sequentially at
`h1:2181`, `h2:2181`, `h3:2181` — each with a well-formed pid marker
read-back — accumulates `userDefinedEnvVarDict["zkConnectStr"]` to
`"h1:2181"`, then `"h1:2181,h2:2181"`, then `"h1:2181,h2:2181,h3:2181"`:
each started node appends `hostname:clientPort` (comma-separated, no
leading comma on the first entry) before the next node starts. -/
theorem start_entity_in_background_zk_connect_accumulation :
    ∃ env1 env2 env3 : TcEnvState,
      start_entity_in_background ⟨"", []⟩ "zookeeper" "h1" "2181" "1"
          [("pid:1001").toList] [] = .ok env1 ∧
      env1.zkConnectStr = "h1:2181" ∧
      start_entity_in_background env1 "zookeeper" "h2" "2181" "2"
          [("pid:1002").toList] [] = .ok env2 ∧
      env2.zkConnectStr = "h1:2181,h2:2181" ∧
      start_entity_in_background env2 "zookeeper" "h3" "2181" "3"
          [("pid:1003").toList] [] = .ok env3 ∧
      env3.zkConnectStr = "h1:2181,h2:2181,h3:2181" := by
  refine ⟨⟨"h1:2181", [("1", "1001")]⟩,
          ⟨"h1:2181,h2:2181", [("1", "1001"), ("2", "1002")]⟩,
          ⟨"h1:2181,h2:2181,h3:2181", [("1", "1001"), ("2", "1002"), ("3", "1003")]⟩,
          ?_, rfl, ?_, rfl, ?_, rfl⟩ <;> rfl

/-! ## C4 : pid registration keys (code bug in `start_metrics_collection`) -/

/-- C4 (evaluation at the failing input): with entity id `"1"` and a
well-formed pid marker read-back `"pid:1234"`, entity startup registers
`entityParentPidDict["1"] = "1234"` as the claim states, but
`start_metrics_collection` registers `entityParentPidDict["1234"] = "1234"`
— keyed by the pid string itself (line 226 of the source), not by the
entity's `entity_id`, which afterwards has no entry on record. -/
theorem start_metrics_collection_pid_key_bug :
    registerEntityPidLines [] "1" [("pid:1234").toList] = .ok [("1", "1234")] ∧
    start_metrics_collection [] [("pid:1234").toList] = .ok [("1234", "1234")] ∧
    dictLookup [("1234", "1234")] "1" = none := by
  refine ⟨rfl, rfl, rfl⟩

/-! ## C3 : fact extraction and exceptions -/

/-- C3 (counterexample): the log line `"MessageID"` contains the scanned
literal, yet `re.match('.*MessageID:(.*?):', line)` fails, so
`matchObj.group(1)` raises `AttributeError` — `get_message_id` crashes
rather than returning an empty or partial result. -/
theorem get_message_id_raises_counterexample :
    containsSub messageIdLiteral (("MessageID").toList) = true ∧
    matchMessageId (("MessageID").toList) = none ∧
    get_message_id [("MessageID").toList] = .error () := by
  refine ⟨by decide, by decide, rfl⟩

/-- When every line matches, the message-id fold stays in the `ok` state. -/
lemma get_message_id_fold_ok (logLines : List (List Char))
    (h : ∀ line ∈ logLines, containsSub messageIdLiteral line →
      (matchMessageId line).isSome) :
    ∀ acc : List (List Char),
      ∃ ids, logLines.foldl messageIdStep (.ok acc) = .ok ids := by
  induction logLines with
  | nil => exact fun acc => ⟨acc, rfl⟩
  | cons line rest ih =>
    intro acc
    rw [List.foldl_cons]
    by_cases hc : containsSub messageIdLiteral line
    · obtain ⟨g, hg⟩ := Option.isSome_iff_exists.mp
        (h line (List.mem_cons_self line rest) hc)
      have hstep : messageIdStep (.ok acc) line = .ok (acc ++ [g]) := by
        unfold messageIdStep
        simp [hc, hg]
      rw [hstep]
      exact ih (fun l hl => h l (List.mem_cons_of_mem line hl)) (acc ++ [g])
    · simp only [Bool.not_eq_true] at hc
      have hstep : messageIdStep (.ok acc) line = .ok acc := by
        unfold messageIdStep
        simp [hc]
      rw [hstep]
      exact ih (fun l hl => h l (List.mem_cons_of_mem line hl)) acc

/-- A `try` block that always fails leaves the whole line loop inert. -/
lemma leaderLineFold_error (marker : List Char) (lines : List (List Char))
    (leaderDict : LeaderDict) :
    lines.foldl (leaderLineStep marker (fun _ => .error ())) leaderDict = leaderDict := by
  induction lines generalizing leaderDict with
  | nil => rfl
  | cons line rest ih =>
    rw [List.foldl_cons]
    have hstep : leaderLineStep marker (fun _ => .error ()) leaderDict line = leaderDict := by
      unfold leaderLineStep
      split <;> rfl
    rw [hstep, ih]

/-- With an always-failing `try` block, the broker loop only records
`entity_id` and `hostname`. -/
lemma leaderBrokerFold_error (marker : List Char) (brokers : List BrokerLogInfo)
    (h : brokers ≠ []) (leaderDict : LeaderDict) :
    brokers.foldl (leaderBrokerStep marker (fun _ => .error ())) leaderDict =
      { leaderDict with entity_id := some ((brokers.getLast h).entity_id),
                        hostname := some ((brokers.getLast h).hostname) } := by
  induction brokers generalizing leaderDict with
  | nil => exact absurd rfl h
  | cons broker rest ih =>
    cases rest with
    | nil =>
      rw [List.foldl_cons, List.foldl_nil]
      unfold leaderBrokerStep
      rw [leaderLineFold_error]
      rfl
    | cons b2 rest2 =>
      rw [List.foldl_cons, List.getLast_cons (List.cons_ne_nil b2 rest2),
          ih (List.cons_ne_nil b2 rest2)]
      unfold leaderBrokerStep
      rw [leaderLineFold_error]

/-- C3 (amended): `get_leader_elected_log_line` never raises — a pattern
mismatch on every line (the `try` block always failing) yields the partial
fact holding only the last broker's `entity_id` and `hostname`, with the
error logged; `get_message_id`, however, only returns normally (with the
collected ids) when every line containing `"MessageID"` actually matches
`.*MessageID:(.*?):` — on any other such line it raises. -/
theorem fact_extraction_no_raise_amended :
    (∀ logLines : List (List Char),
      (∀ line ∈ logLines, containsSub messageIdLiteral line →
        (matchMessageId line).isSome) →
      ∃ ids, get_message_id logLines = .ok ids) ∧
    (∀ (marker : List Char) (brokers : List BrokerLogInfo) (h : brokers ≠ []),
      get_leader_elected_log_line marker (fun _ => .error ()) brokers =
        { LeaderDict.empty with
            entity_id := some ((brokers.getLast h).entity_id),
            hostname := some ((brokers.getLast h).hostname) }) := by
  constructor
  · intro logLines h
    exact get_message_id_fold_ok logLines h []
  · intro marker brokers h
    exact leaderBrokerFold_error marker brokers h LeaderDict.empty

/-- Witness for the amended C3: a well-formed producer log yields its ids,
and a leader scan whose pattern never matches yields the partial fact for
the single broker. -/
theorem fact_extraction_no_raise_amended_witness :
    (∀ line ∈ [("x MessageID:id_1:\n").toList],
      containsSub messageIdLiteral line → (matchMessageId line).isSome) ∧
    (∃ ids, get_message_id [("x MessageID:id_1:\n").toList] = .ok ids) ∧
    (([⟨"1", "h1", [("no match here\n").toList]⟩] : List BrokerLogInfo) ≠ []) ∧
    (get_leader_elected_log_line ("leader election").toList (fun _ => .error ())
        [⟨"1", "h1", [("no match here\n").toList]⟩] =
      { LeaderDict.empty with entity_id := some "1", hostname := some "h1" }) := by
  refine ⟨by decide, fact_extraction_no_raise_amended.1 _ (by decide), by decide, ?_⟩
  have := fact_extraction_no_raise_amended.2 ("leader election").toList
    [⟨"1", "h1", [("no match here\n").toList]⟩] (by decide)
  simpa using this

/-! ## C5 : unrecognized role during config materialization -/

/-- C5 (counterexample): a topology containing an entity of the
unrecognized role `"mirror_maker"` followed by a zookeeper entity: the
materialization run completes normally — `.ok`, no exception and no abort —
with no config file written for the unrecognized entity (only its tcCfg
printed through the `UNHANDLED key` branch), and the subsequent zookeeper
entity still materialized.  The unrecognized role is therefore not a hard
stop: it does not fail that entity's materialization loudly. -/
theorem generate_overriden_props_files_no_hard_stop :
    generate_overriden_props_files "zk1:2181"
        [⟨"5", "mirror_maker"⟩, ⟨"6", "zookeeper"⟩]
        [[("entity_id", "5"), ("config_filename", "m.properties")],
         [("entity_id", "6"), ("config_filename", "zk.properties")]] =
      .ok ([⟨"zookeeper.properties", "zk.properties",
             [("entity_id", "6"), ("config_filename", "zk.properties")]⟩],
           [[("entity_id", "5"), ("config_filename", "m.properties")]]) := by
  rfl

/-- On an unrecognized role, the inner tcCfg loop issues no write and
collects exactly the matching tcCfg dicts into the `UNHANDLED key` prints. -/
lemma processCluster_unknown_role (zkConnectStr : String) (clusterCfg : ClusterCfg)
    (tcConfigsList : List (List (String × String)))
    (hrole : clusterCfg.role ∉
      ["broker", "zookeeper", "producer_performance", "console_consumer"])
    (hids : ∀ tcCfg ∈ tcConfigsList, (dictLookup tcCfg "entity_id").isSome) :
    processCluster zkConnectStr clusterCfg tcConfigsList =
      .ok ([], tcConfigsList.filter
        (fun tcCfg => dictLookup tcCfg "entity_id" = some clusterCfg.entity_id)) := by
  simp only [List.mem_cons, List.mem_singleton, not_or] at hrole
  obtain ⟨hr1, hr2, hr3, hr4, -⟩ := hrole
  induction tcConfigsList with
  | nil => rfl
  | cons tcCfg rest ih =>
    obtain ⟨eid, heid⟩ := Option.isSome_iff_exists.mp
      (hids tcCfg (List.mem_cons_self tcCfg rest))
    have hrest := ih (fun cfg hcfg => hids cfg (List.mem_cons_of_mem tcCfg hcfg))
    unfold processCluster
    by_cases hmatch : eid = clusterCfg.entity_id
    · have hone : processEntityTcCfg zkConnectStr clusterCfg tcCfg = .ok ([], [tcCfg]) := by
        unfold processEntityTcCfg
        rw [heid]
        simp [hmatch, hr1, hr2, hr3, hr4]
      rw [hone, hrest]
      have hfil : dictLookup tcCfg "entity_id" = some clusterCfg.entity_id := by
        rw [heid, hmatch]
      simp [List.filter_cons, hfil]
    · have hone : processEntityTcCfg zkConnectStr clusterCfg tcCfg = .ok ([], []) := by
        unfold processEntityTcCfg
        rw [heid]
        simp [hmatch]
      rw [hone, hrest]
      have hfil : ¬ dictLookup tcCfg "entity_id" = some clusterCfg.entity_id := by
        rw [heid]
        simp [hmatch]
      simp [List.filter_cons, hfil]

/-- C5 (amended): encountering a cluster entity whose role is unrecognized
is NOT a hard stop — that entity's materialization is skipped, its testcase
config dicts being printed through the `UNHANDLED key` branch, no file is
written for it, and materialization continues with the remaining entities
of the topology. -/
theorem generate_overriden_props_files_unknown_role_amended
    (zkConnectStr : String) (clusterCfg : ClusterCfg) (rest : List ClusterCfg)
    (tcConfigsList : List (List (String × String)))
    (hrole : clusterCfg.role ∉
      ["broker", "zookeeper", "producer_performance", "console_consumer"])
    (hids : ∀ tcCfg ∈ tcConfigsList, (dictLookup tcCfg "entity_id").isSome) :
    processCluster zkConnectStr clusterCfg tcConfigsList =
      .ok ([], tcConfigsList.filter
        (fun tcCfg => dictLookup tcCfg "entity_id" = some clusterCfg.entity_id)) ∧
    (∀ writes unhandled,
      generate_overriden_props_files zkConnectStr rest tcConfigsList =
        .ok (writes, unhandled) →
      generate_overriden_props_files zkConnectStr (clusterCfg :: rest) tcConfigsList =
        .ok (writes,
          tcConfigsList.filter
            (fun tcCfg => dictLookup tcCfg "entity_id" = some clusterCfg.entity_id)
          ++ unhandled)) := by
  refine ⟨processCluster_unknown_role zkConnectStr clusterCfg tcConfigsList hrole hids, ?_⟩
  intro writes unhandled hrest
  unfold generate_overriden_props_files
  rw [processCluster_unknown_role zkConnectStr clusterCfg tcConfigsList hrole hids, hrest]
  rfl

/-- Witness for the amended C5: the `"mirror_maker"` entity is skipped with
its config dict recorded as unhandled, while the zookeeper entity that
follows is still materialized. -/
theorem generate_overriden_props_files_unknown_role_amended_witness :
    (("mirror_maker" : String) ∉
      ["broker", "zookeeper", "producer_performance", "console_consumer"]) ∧
    (∀ tcCfg ∈ [[("entity_id", "5"), ("config_filename", "m.properties")],
                [("entity_id", "6"), ("config_filename", "zk.properties")]],
      (dictLookup tcCfg "entity_id").isSome) ∧
    generate_overriden_props_files "zk1:2181"
        [⟨"5", "mirror_maker"⟩]
        [[("entity_id", "5"), ("config_filename", "m.properties")],
         [("entity_id", "6"), ("config_filename", "zk.properties")]] =
      .ok ([], [[("entity_id", "5"), ("config_filename", "m.properties")]]) := by
  refine ⟨by decide, by decide, ?_⟩
  have h := (generate_overriden_props_files_unknown_role_amended "zk1:2181"
    ⟨"5", "mirror_maker"⟩ []
    [[("entity_id", "5"), ("config_filename", "m.properties")],
     [("entity_id", "6"), ("config_filename", "zk.properties")]]
    (by decide) (by decide)).2 [] [] rfl
  rw [h]
  rfl

/-! ## C8 : template rendering -/

/-- Two `'='`-free keys followed by `'='` agree whenever the full strings
agree. -/
lemma eqfree_key_eq (a : List Char) : ∀ (b s t : List Char),
    ('=' : Char) ∉ a → ('=' : Char) ∉ b → a ++ '=' :: s = b ++ '=' :: t → a = b := by
  induction a with
  | nil =>
    intro b s t _ hb h
    cases b with
    | nil => rfl
    | cons c bs =>
      simp only [List.nil_append, List.cons_append] at h
      injection h with h1 h2
      exact absurd (h1 ▸ List.mem_cons_self c bs) hb
  | cons c as ih =>
    intro b s t ha hb h
    cases b with
    | nil =>
      simp only [List.cons_append, List.nil_append] at h
      injection h with h1 h2
      exact absurd (h1 ▸ List.mem_cons_self c as) ha
    | cons c' bs =>
      simp only [List.cons_append] at h
      injection h with h1 h2
      have has : ('=' : Char) ∉ as := fun hm => ha (List.mem_cons_of_mem c hm)
      have hbs : ('=' : Char) ∉ bs := fun hm => hb (List.mem_cons_of_mem c' hm)
      rw [h1, ih bs s t has hbs h2]

/-- A rewritten line `k=v\n` (with `'='`-free `k`) is matched by no other
`'='`-free key `k2`. -/
lemma not_isPrefixOf_rewritten (k v k2 : List Char) (hk : ('=' : Char) ∉ k)
    (hk2 : ('=' : Char) ∉ k2) (hne : k2 ≠ k) :
    ¬ (k2 ++ ['=']).isPrefixOf (k ++ ['='] ++ v ++ ['\n']) := by
  intro h
  rw [List.isPrefixOf_iff_prefix] at h
  obtain ⟨t, ht⟩ := h
  apply hne
  apply eqfree_key_eq k2 k t (v ++ ['\n']) hk2 hk
  simpa [List.append_assoc] using ht

/-- A line matched by no key of the dict is left verbatim by the
substitution loop. -/
lemma processLine_no_match (dictObj : List (List Char × List Char)) (line : List Char)
    (h : ∀ kv ∈ dictObj, ¬ (kv.1 ++ ['=']).isPrefixOf line) :
    processLine dictObj line = line := by
  induction dictObj with
  | nil => rfl
  | cons kv rest ih =>
    unfold processLine at ih ⊢
    rw [List.foldl_cons, if_neg (h kv (List.mem_cons_self kv rest))]
    exact ih (fun kv2 h2 => h kv2 (List.mem_cons_of_mem kv h2))

/-- With `'='`-free, duplicate-free keys, the imperative substitution loop
computes exactly the specification's first-match rendering. -/
lemma processLine_eq_renderLineSpec (dictObj : List (List Char × List Char))
    (hkeys : ∀ kv ∈ dictObj, ('=' : Char) ∉ kv.1)
    (hnodup : (dictObj.map Prod.fst).Nodup) (line : List Char) :
    processLine dictObj line = renderLineSpec dictObj line := by
  induction dictObj with
  | nil => rfl
  | cons kv rest ih =>
    rw [List.map_cons, List.nodup_cons] at hnodup
    obtain ⟨hni, hnodup'⟩ := hnodup
    by_cases h : (kv.1 ++ ['=']).isPrefixOf line
    · unfold processLine renderLineSpec
      rw [List.foldl_cons, if_pos h,
          List.find?_cons_of_pos (p := fun kv2 => (kv2.1 ++ ['=']).isPrefixOf line) rest h]
      apply processLine_no_match
      intro kv2 h2
      apply not_isPrefixOf_rewritten kv.1 kv.2 kv2.1
        (hkeys kv (List.mem_cons_self kv rest))
        (hkeys kv2 (List.mem_cons_of_mem kv h2))
      intro heq
      exact hni (heq ▸ List.mem_map_of_mem Prod.fst h2)
    · unfold processLine renderLineSpec
      rw [List.foldl_cons, if_neg h,
          List.find?_cons_of_neg (p := fun kv2 => (kv2.1 ++ ['=']).isPrefixOf line) rest h]
      exact ih (fun kv2 h2 => hkeys kv2 (List.mem_cons_of_mem kv h2)) hnodup'

/-- In a dict with duplicate-free keys, an entry is determined by its key. -/
lemma mem_eq_of_nodup_keys (dictObj : List (List Char × List Char))
    (hnodup : (dictObj.map Prod.fst).Nodup) (k v : List Char)
    (h1 : (k, v) ∈ dictObj) (kv' : List Char × List Char) (h2 : kv' ∈ dictObj)
    (hk : kv'.1 = k) : kv' = (k, v) := by
  induction dictObj with
  | nil => exact absurd h1 (List.not_mem_nil _)
  | cons a rest ih =>
    rw [List.map_cons, List.nodup_cons] at hnodup
    obtain ⟨hni, hnodup'⟩ := hnodup
    rcases List.mem_cons.mp h1 with h1h | h1t
    · rcases List.mem_cons.mp h2 with h2h | h2t
      · rw [h2h, ← h1h]
      · exfalso
        apply hni
        have hmem : kv'.1 ∈ List.map Prod.fst rest := List.mem_map_of_mem Prod.fst h2t
        rw [hk] at hmem
        rw [← h1h]
        exact hmem
    · rcases List.mem_cons.mp h2 with h2h | h2t
      · exfalso
        apply hni
        rw [h2h] at hk
        rw [hk]
        exact List.mem_map_of_mem Prod.fst h1t
      · exact ih hnodup' h1t h2t

/-- C8 (counterexample): the claim is not true of every settings mapping —
with the mapping `{"a=b": "v"}` the template line `"a=b=c"` has key (text
before `=`) `"a"`, which matches no entry of the mapping, yet the line is
rewritten to `"a=b=v"` instead of being copied verbatim, because the source
matches by `line.startswith(key + "=")`, not by comparing the text before
the first `=`. -/
theorem copy_file_with_dict_values_eq_in_key_counterexample :
    copy_file_with_dict_values [("a=b=c\n").toList] [(("a=b").toList, ("v").toList)] =
      [("a=b=v\n").toList] ∧
    (("a=b=c\n").toList).takeWhile (fun c => c ≠ '=') = ("a").toList ∧
    (∀ kv ∈ [(("a=b").toList, ("v").toList)], kv.1 ≠ ("a").toList) ∧
    copy_file_with_dict_values [("a=b=c\n").toList] [(("a=b").toList, ("v").toList)] ≠
      [("a=b=c\n").toList] := by
  refine ⟨by decide, by decide, by decide, by decide⟩

/-- C8 (amended): for every template file and every settings mapping whose
keys contain no `'='` (true of all property-file keys this harness uses;
keys are unique, as they come from a Python dict), the rendered output is
the line-by-line specification rendering: a line starting with `key=` for
an entry of the mapping is rewritten as `key=value` (with the trailing
newline re-appended), and a line matching no key is copied verbatim. -/
theorem copy_file_with_dict_values_renders
    (dictObj : List (List Char × List Char))
    (hkeys : ∀ kv ∈ dictObj, ('=' : Char) ∉ kv.1)
    (hnodup : (dictObj.map Prod.fst).Nodup)
    (inlines : List (List Char)) :
    copy_file_with_dict_values inlines dictObj = inlines.map (renderLineSpec dictObj) ∧
    (∀ (k v rest : List Char), (k, v) ∈ dictObj →
      renderLineSpec dictObj (k ++ ['='] ++ rest) = k ++ ['='] ++ v ++ ['\n']) ∧
    (∀ line : List Char, (∀ kv ∈ dictObj, ¬ (kv.1 ++ ['=']).isPrefixOf line) →
      renderLineSpec dictObj line = line) := by
  refine ⟨?_, ?_, ?_⟩
  · unfold copy_file_with_dict_values
    congr 1
    funext line
    exact processLine_eq_renderLineSpec dictObj hkeys hnodup line
  · intro k v rest hmem
    unfold renderLineSpec
    have hpref : (k ++ ['=']).isPrefixOf (k ++ ['='] ++ rest) := by
      rw [List.isPrefixOf_iff_prefix]
      exact ⟨rest, by simp [List.append_assoc]⟩
    cases hf : dictObj.find? (fun kv => (kv.1 ++ ['=']).isPrefixOf (k ++ ['='] ++ rest)) with
    | none =>
      have := List.find?_eq_none.mp hf (k, v) hmem
      simp [hpref] at this
    | some kv' =>
      have hp' : ((kv'.1 ++ ['=']).isPrefixOf (k ++ ['='] ++ rest)) = true := by
        simpa using List.find?_some hf
      have hmem' : kv' ∈ dictObj := List.mem_of_find?_eq_some hf
      have hk' : kv'.1 = k := by
        rw [List.isPrefixOf_iff_prefix] at hp'
        obtain ⟨t, ht⟩ := hp'
        exact eqfree_key_eq kv'.1 k t rest (hkeys kv' hmem') (hkeys (k, v) hmem)
          (by simpa [List.append_assoc] using ht)
      rw [mem_eq_of_nodup_keys dictObj hnodup k v hmem kv' hmem' hk']
  · intro line hnone
    unfold renderLineSpec
    rw [List.find?_eq_none.mpr hnone]

/-- Witness for C8: the template line `"zk.connect=OLD"` with the mapping
`{"zk.connect": "h1:2181,h2:2181"}` renders exactly
`"zk.connect=h1:2181,h2:2181"`, and the unmatched line `"other=1"` is
copied verbatim. -/
theorem copy_file_with_dict_values_renders_witness :
    (∀ kv ∈ [(("zk.connect").toList, ("h1:2181,h2:2181").toList)], ('=' : Char) ∉ kv.1) ∧
    (([(("zk.connect").toList, ("h1:2181,h2:2181").toList)].map Prod.fst).Nodup) ∧
    copy_file_with_dict_values
        [("zk.connect=OLD\n").toList, ("other=1\n").toList]
        [(("zk.connect").toList, ("h1:2181,h2:2181").toList)] =
      [("zk.connect=h1:2181,h2:2181\n").toList, ("other=1\n").toList] := by
  refine ⟨by decide, by decide, ?_⟩
  rw [(copy_file_with_dict_values_renders
        [(("zk.connect").toList, ("h1:2181,h2:2181").toList)] (by decide) (by decide)
        [("zk.connect=OLD\n").toList, ("other=1\n").toList]).1]
  decide

end KafkaSystemTest
